import Mathlib

/-!
Verification of the MCP3008 / MCP3004 ADC driver (src/lib.rs).

The driver is embedded shallowly:
- `Channels8` / `Channels4` are the channel enumerations (lines 156-165 and
  170-175); `toU8` is the Rust enum discriminant used by the `ch as u8` cast.
- `Mcp3008.write_buffer` / `Mcp3004.write_buffer` are the 3-byte command
  frames built on lines 66 and 115, in u8 arithmetic (Nat with mod 256).
- `decode` is the reply decoding of lines 74-75 (and its textual copies on
  lines 99, 123, 148), in u16 arithmetic (Nat with mod 65536); the reply
  bytes are u8 cells, taken mod 256.
- The external SPI transaction primitive (embedded-hal SpiDevice) is modelled
  as a function `SpiBus` from the write buffer of a transaction to either a
  bus fault or the 3 bytes placed in the read buffer. Each `read_channel`
  returns its Result together with the effect trace: the list of write
  buffers of the bus transactions it attempted, in order.
-/

/-- Channel list for MCP3008 (lines 156-165 of src/lib.rs). -/
inductive Channels8
  | CH0
  | CH1
  | CH2
  | CH3
  | CH4
  | CH5
  | CH6
  | CH7
deriving DecidableEq

/-- Channel list for MCP3004 (lines 170-175 of src/lib.rs). -/
inductive Channels4
  | CH0
  | CH1
  | CH2
  | CH3
deriving DecidableEq

/-- The Rust enum discriminant of a `Channels8` value, as produced by the
`ch as u8` cast: fieldless enums take declaration-order discriminants 0, 1, 2, ... -/
def Channels8.toU8 : Channels8 → Nat
  | .CH0 => 0
  | .CH1 => 1
  | .CH2 => 2
  | .CH3 => 3
  | .CH4 => 4
  | .CH5 => 5
  | .CH6 => 6
  | .CH7 => 7

/-- The Rust enum discriminant of a `Channels4` value, as produced by the
`ch as u8` cast. -/
def Channels4.toU8 : Channels4 → Nat
  | .CH0 => 0
  | .CH1 => 1
  | .CH2 => 2
  | .CH3 => 3

/-- The 3-byte command frame built by `Mcp3008::read_channel` (line 66):
`[1, ((1 << 3) | (ch as u8)) << 4, 0]`, with byte 1 computed in u8
arithmetic (the shift keeps the low 8 bits). -/
def Mcp3008.write_buffer (ch : Channels8) : List Nat :=
  [1, (((1 <<< 3) ||| ch.toU8) <<< 4) % 256, 0]

/-- The 3-byte command frame built by `Mcp3004::read_channel` (line 115),
identical in form to the MCP3008 frame. -/
def Mcp3004.write_buffer (ch : Channels4) : List Nat :=
  [1, (((1 <<< 3) ||| ch.toU8) <<< 4) % 256, 0]

/-- Decoding of the 3-byte reply frame (lines 74-75):
`(((read_buffer[1] as u16) << 8) | (read_buffer[2] as u16)) & 0x3ff`.
The reply cells are u8 (mod 256) and the shift and or are u16 operations
(mod 65536). -/
def decode (reply : Nat × Nat × Nat) : Nat :=
  ((((reply.2.1 % 256) <<< 8) % 65536) ||| (reply.2.2 % 256)) &&& 0x3ff

/-- Model of the external SPI transaction primitive (embedded-hal
`SpiDevice::transaction` with one Write then one Read operation under a single
chip select): from the write buffer sent, either a bus fault of type ε or the
3 bytes the device places in the read buffer. -/
def SpiBus (ε : Type) : Type :=
  List Nat → Except ε (Nat × Nat × Nat)

/-- Embedding of `Mcp3008::read_channel` (lines 65-76). The first component
is the returned `Result`; the second is the effect trace: the write buffers
of the bus transactions attempted by this call, in order. -/
def Mcp3008.read_channel {ε : Type} (bus : SpiBus ε) (ch : Channels8) :
    Except ε Nat × List (List Nat) :=
  let write_buffer := [1, (((1 <<< 3) ||| ch.toU8) <<< 4) % 256, 0]
  match bus write_buffer with
  | .error e => (.error e, [write_buffer])
  | .ok read_buffer => (.ok (decode read_buffer), [write_buffer])

/-- Embedding of `AsyncMcp3008::read_channel` (lines 89-101). The awaited
bus transaction is modelled by the same bus call: suspension introduces no
additional state, so the resumed computation is a pure function of the
transaction outcome. -/
def AsyncMcp3008.read_channel {ε : Type} (bus : SpiBus ε) (ch : Channels8) :
    Except ε Nat × List (List Nat) :=
  let write_buffer := [1, (((1 <<< 3) ||| ch.toU8) <<< 4) % 256, 0]
  match bus write_buffer with
  | .error e => (.error e, [write_buffer])
  | .ok read_buffer => (.ok (decode read_buffer), [write_buffer])

/-- Embedding of `Mcp3004::read_channel` (lines 113-125). -/
def Mcp3004.read_channel {ε : Type} (bus : SpiBus ε) (ch : Channels4) :
    Except ε Nat × List (List Nat) :=
  let write_buffer := [1, (((1 <<< 3) ||| ch.toU8) <<< 4) % 256, 0]
  match bus write_buffer with
  | .error e => (.error e, [write_buffer])
  | .ok read_buffer => (.ok (decode read_buffer), [write_buffer])

/-- Embedding of `AsyncMcp3004::read_channel` (lines 138-150). -/
def AsyncMcp3004.read_channel {ε : Type} (bus : SpiBus ε) (ch : Channels4) :
    Except ε Nat × List (List Nat) :=
  let write_buffer := [1, (((1 <<< 3) ||| ch.toU8) <<< 4) % 256, 0]
  match bus write_buffer with
  | .error e => (.error e, [write_buffer])
  | .ok read_buffer => (.ok (decode read_buffer), [write_buffer])

/-- Closed form of `decode`: the sample is the low 2 bits of reply byte 1
in the high position plus reply byte 2 (as a u8). -/
theorem decode_eq (b0 b1 b2 : Nat) :
    decode (b0, b1, b2) = b1 % 4 * 256 + b2 % 256 := by
  have hshift : (b1 % 256) <<< 8 = 2 ^ 8 * (b1 % 256) := by
    rw [Nat.shiftLeft_eq]
    ring
  have hor : 2 ^ 8 * (b1 % 256) ||| b2 % 256 = 2 ^ 8 * (b1 % 256) + b2 % 256 :=
    (Nat.mul_add_lt_is_or (by omega) (b1 % 256)).symm
  have hmod : 2 ^ 8 * (b1 % 256) % 65536 = 2 ^ 8 * (b1 % 256) := by omega
  have h1023 : (0x3ff : Nat) = 2 ^ 10 - 1 := rfl
  simp only [decode]
  rw [hshift, hmod, hor, h1023, Nat.and_pow_two_sub_one_eq_mod]
  omega

/-- C1: for every valid channel code of either device variant, the 3-byte
command frame written by read_channel has byte 0 equal to 0x01, byte 1 equal
to (0x08 ||| code) <<< 4, and byte 2 equal to 0x00. -/
theorem command_frame_encoding :
    (∀ (ε : Type) (bus : SpiBus ε) (ch : Channels8),
      (Mcp3008.read_channel bus ch).2
        = [[0x01, (0x08 ||| ch.toU8) <<< 4, 0x00]]) ∧
    (∀ (ε : Type) (bus : SpiBus ε) (ch : Channels4),
      (Mcp3004.read_channel bus ch).2
        = [[0x01, (0x08 ||| ch.toU8) <<< 4, 0x00]]) := by
  constructor
  · intro ε bus ch
    cases hb : bus [1, (((1 <<< 3) ||| ch.toU8) <<< 4) % 256, 0] <;>
      · simp only [Mcp3008.read_channel, hb]
        cases ch <;> rfl
  · intro ε bus ch
    cases hb : bus [1, (((1 <<< 3) ||| ch.toU8) <<< 4) % 256, 0] <;>
      · simp only [Mcp3004.read_channel, hb]
        cases ch <;> rfl

/-- C2: decoding is a total function of the 3-byte reply and the sample is
always in the range 0 to 1023 inclusive. -/
theorem decode_total_in_range (reply : Nat × Nat × Nat) :
    decode reply ≤ 1023 := by
  obtain ⟨b0, b1, b2⟩ := reply
  rw [decode_eq]
  omega

/-- C3: the decoded sample depends only on the low 2 bits of reply byte 1
and on reply byte 2: forcing the high 6 bits of byte 1 leaves the result
unchanged, and byte 0 never affects the result. -/
theorem decode_masking (x y b1 b2 : Nat) :
    decode (x, b1 ||| 0xfc, b2) = decode (x, b1, b2) ∧
    decode (x, b1, b2) = decode (y, b1, b2) := by
  refine ⟨?_, rfl⟩
  rw [decode_eq, decode_eq]
  have hmask : ∀ a : Nat, a % 4 = a &&& 3 := by
    intro a
    have h3 : (3 : Nat) = 2 ^ 2 - 1 := rfl
    rw [h3, Nat.and_pow_two_sub_one_eq_mod]
  have : (b1 ||| 0xfc) % 4 = b1 % 4 := by
    rw [hmask, hmask, Nat.and_distrib_right,
      show (0xfc : Nat) &&& 3 = 0 from rfl, Nat.or_zero]
  rw [this]

/-- C4: round-trip of clean data bits: when byte 1 carries only its 2 valid
low bits, decoding returns exactly (hi_bits <<< 8) ||| lo_byte. -/
theorem decode_roundtrip (x hi lo : Nat) (hhi : hi ≤ 3) (hlo : lo < 256) :
    decode (x, hi, lo) = (hi <<< 8) ||| lo := by
  have hor : hi <<< 8 ||| lo = 2 ^ 8 * hi + lo := by
    rw [Nat.shiftLeft_eq, Nat.mul_comm hi (2 ^ 8)]
    exact (Nat.mul_add_lt_is_or (by omega) hi).symm
  rw [decode_eq, hor]
  omega

/-- Witness for C4 at x = 5, hi_bits = 3, lo_byte = 160. -/
theorem decode_roundtrip_witness :
    3 ≤ 3 ∧ 160 < 256 ∧ decode (5, 3, 160) = (3 <<< 8) ||| 160 :=
  ⟨by decide, by decide, decode_roundtrip 5 3 160 (by decide) (by decide)⟩

/-- C5: when the bus transaction reports a fault, read_channel returns that
fault value unchanged, produces no sample, and the effect trace shows exactly
one attempted transaction (the faulting one) and no further bus activity. -/
theorem read_channel_fault_propagation {ε : Type} (bus : SpiBus ε) (e : ε) :
    (∀ ch : Channels8, bus (Mcp3008.write_buffer ch) = .error e →
      Mcp3008.read_channel bus ch = (.error e, [Mcp3008.write_buffer ch])) ∧
    (∀ ch : Channels4, bus (Mcp3004.write_buffer ch) = .error e →
      Mcp3004.read_channel bus ch = (.error e, [Mcp3004.write_buffer ch])) := by
  constructor
  · intro ch h
    simp only [Mcp3008.read_channel]
    rw [show [1, (((1 <<< 3) ||| ch.toU8) <<< 4) % 256, 0]
          = Mcp3008.write_buffer ch from rfl, h]
  · intro ch h
    simp only [Mcp3004.read_channel]
    rw [show [1, (((1 <<< 3) ||| ch.toU8) <<< 4) % 256, 0]
          = Mcp3004.write_buffer ch from rfl, h]

/-- Witness for C5: a bus that always faults with the value 7, on channel 0. -/
theorem read_channel_fault_propagation_witness :
    (fun _ : List Nat => (Except.error 7 : Except Nat (Nat × Nat × Nat)))
        (Mcp3008.write_buffer Channels8.CH0) = Except.error 7 ∧
    Mcp3008.read_channel (fun _ => Except.error 7) Channels8.CH0
        = (Except.error 7, [Mcp3008.write_buffer Channels8.CH0]) :=
  ⟨rfl,
    (read_channel_fault_propagation (fun _ => Except.error 7) 7).1
      Channels8.CH0 rfl⟩

/-- C6: for the same channel and the same bus behaviour (hence the same
reply bytes or the same fault), the suspension-capable read_channel returns
exactly what the blocking read_channel returns, including the identical
command frame in the transaction trace, for both device variants. -/
theorem async_read_channel_equiv :
    (∀ (ε : Type) (bus : SpiBus ε) (ch : Channels8),
      AsyncMcp3008.read_channel bus ch = Mcp3008.read_channel bus ch) ∧
    (∀ (ε : Type) (bus : SpiBus ε) (ch : Channels4),
      AsyncMcp3004.read_channel bus ch = Mcp3004.read_channel bus ch) :=
  ⟨fun _ _ _ => rfl, fun _ _ _ => rfl⟩

/-- C7: concrete encoding scenarios: channel 0 and channel 7 on the
8-channel device and channel 3 on the 4-channel device. -/
theorem encode_scenarios :
    Mcp3008.write_buffer Channels8.CH0 = [0x01, 0x80, 0x00] ∧
    Mcp3008.write_buffer Channels8.CH7 = [0x01, 0xf0, 0x00] ∧
    Mcp3004.write_buffer Channels4.CH3 = [0x01, 0xb0, 0x00] :=
  ⟨rfl, rfl, rfl⟩

/-- C8: concrete decoding scenario: the reply [0x00, 0x02, 0xff] decodes to
the sample 767. -/
theorem decode_scenario : decode (0x00, 0x02, 0xff) = 767 := rfl

/-- C9: every named channel converts to the unsigned integer code equal to
its 0-based ordinal position in its enumeration. -/
theorem channel_codes_are_ordinals :
    Channels8.CH0.toU8 = 0 ∧ Channels8.CH1.toU8 = 1 ∧
    Channels8.CH2.toU8 = 2 ∧ Channels8.CH3.toU8 = 3 ∧
    Channels8.CH4.toU8 = 4 ∧ Channels8.CH5.toU8 = 5 ∧
    Channels8.CH6.toU8 = 6 ∧ Channels8.CH7.toU8 = 7 ∧
    Channels4.CH0.toU8 = 0 ∧ Channels4.CH1.toU8 = 1 ∧
    Channels4.CH2.toU8 = 2 ∧ Channels4.CH3.toU8 = 3 :=
  ⟨rfl, rfl, rfl, rfl, rfl, rfl, rfl, rfl, rfl, rfl, rfl, rfl⟩

/-- C10: the command frames of two distinct channels of one device variant
differ in byte 1 (so encoding is injective), and the 4-channel frame for a
code equals the 8-channel frame for the same code. -/
theorem encode_injective_and_cross_variant :
    (∀ c1 c2 : Channels8, c1 ≠ c2 →
      (Mcp3008.write_buffer c1)[1]? ≠ (Mcp3008.write_buffer c2)[1]?) ∧
    (∀ c1 c2 : Channels4, c1 ≠ c2 →
      (Mcp3004.write_buffer c1)[1]? ≠ (Mcp3004.write_buffer c2)[1]?) ∧
    (∀ (c4 : Channels4) (c8 : Channels8), c4.toU8 = c8.toU8 →
      Mcp3004.write_buffer c4 = Mcp3008.write_buffer c8) := by
  refine ⟨?_, ?_, ?_⟩ <;>
    intro a b h <;>
    cases a <;>
    cases b <;>
    first
      | rfl
      | exact absurd rfl h
      | exact absurd h (by decide)
      | decide

/-- Witness for C10: distinct channels CH0 and CH1 on each variant, and the
shared code 2 across variants. -/
theorem encode_injective_witness :
    (Channels8.CH0 ≠ Channels8.CH1 ∧
      (Mcp3008.write_buffer Channels8.CH0)[1]?
        ≠ (Mcp3008.write_buffer Channels8.CH1)[1]?) ∧
    (Channels4.CH0 ≠ Channels4.CH1 ∧
      (Mcp3004.write_buffer Channels4.CH0)[1]?
        ≠ (Mcp3004.write_buffer Channels4.CH1)[1]?) ∧
    (Channels4.CH2.toU8 = Channels8.CH2.toU8 ∧
      Mcp3004.write_buffer Channels4.CH2 = Mcp3008.write_buffer Channels8.CH2) :=
  ⟨⟨by decide,
      encode_injective_and_cross_variant.1 Channels8.CH0 Channels8.CH1 (by decide)⟩,
    ⟨by decide,
      encode_injective_and_cross_variant.2.1 Channels4.CH0 Channels4.CH1 (by decide)⟩,
    ⟨rfl,
      encode_injective_and_cross_variant.2.2 Channels4.CH2 Channels8.CH2 rfl⟩⟩
